import Mathlib

/-
Verification of the kubectl-volsync relationship lifecycle engine
(repository v-harihar/volsync).

The development is a shallow embedding of the Go sources under src/:
  - cmd/common_utils.go              (createSecret, deleteSecret, parseCronSpec,
                                      checkPVCMountStatus, waitForSync)
  - cmd/migration.go                 (two committed variants of the migration
                                      relationship record and its Save)
  - cmd/pvbackup.go                  (pvBackup relationship plus two committed
                                      variants of the migration create flow;
                                      variant A at lines 142..462, variant B at
                                      lines 498..762 of the concatenated file)
  - unnamed/part_000                 (the pv-backup create flow)

Cluster API calls are modelled by passing their outcomes in explicitly
(an environment record per flow) and by emitting a trace of the calls the
flow performs, so that statements about call ordering (validation before
mutation, create-skipped-on-reuse, save-after-mutation) are about the
emitted trace.  Strings model Go strings; a resource.Quantity is carried
as its canonical string rendering (the code never computes with the
numeric value, it only stores and re-renders it).
-/

namespace VolSync

/-- Go errors are carried as their message text. -/
abbrev Err := String

/-- Outcome of a single client.Create call against the cluster, as seen by
the CLI: success, an IsAlreadyExists error, or any other error. -/
inductive CreateOutcome where
  | ok
  | alreadyExists
  | otherError (msg : String)
  deriving DecidableEq, Repr

/-- One API call made by a flow against the cluster.  Get calls are reads;
Create calls are mutations. -/
inductive ClusterOp where
  | getPVC (ns name : String)
  | createNS (ns : String)
  | createPVC (ns name : String)
  | createRD (ns name : String)
  | getRD (ns name : String)
  | createSecret (ns name : String)
  | createRS (ns name : String)
  | getRS (ns name : String)
  deriving DecidableEq, Repr

/-- Whether a cluster call mutates cluster state (all Creates do, Gets do not). -/
def ClusterOp.isMutating : ClusterOp → Bool
  | .getPVC _ _ => false
  | .getRD _ _ => false
  | .getRS _ _ => false
  | _ => true

/-- The parts of a corev1.PersistentVolumeClaim that the flows read:
Spec.AccessModes, Spec.Resources.Requests[storage] (canonical string, absent
when unset), Spec.StorageClassName (a nil-able pointer) and ObjectMeta.ClusterName. -/
structure PVCObj where
  accessModes : List String
  storageRequest : Option String
  storageClassName : Option String
  clusterName : String
  deriving DecidableEq, Repr

/-- The fields of ReplicationDestinationStatus.Rsync that the migration flow
copies out after the readiness wait. -/
structure RsyncStatus where
  address : Option String
  port : Option Int
  sshKeys : Option String
  deriving DecidableEq, Repr

/-- Embedding of volsyncv1alpha1.ReplicationDestinationRsyncSpec as populated by
the migration create flow (Go zero values: empty string / nil pointers / nil slice). -/
structure RsyncSpec where
  copyMethod : String
  capacity : Option String
  accessModes : List String
  storageClassName : Option String
  serviceType : Option String
  address : Option String
  port : Option Int
  sshKeys : Option String
  deriving DecidableEq, Repr

/-- The Go zero value of the rsync spec struct. -/
def RsyncSpec.zero : RsyncSpec :=
  ⟨"", none, [], none, none, none, none, none⟩

/-- Embedding of migrationRelationshipDestination (cmd/migration.go).  Variant A
keeps the looked-up PVC on the enclosing migrationCreate struct and variant B keeps
it in the PVC field of this struct; the model carries it here for both. -/
structure MRD where
  cluster : String
  ns : String
  pvcName : String
  pvc : Option PVCObj
  mdName : String
  destination : RsyncSpec
  deriving DecidableEq, Repr

/-- The Go zero value of migrationRelationshipDestination. -/
def MRD.zero : MRD :=
  ⟨"", "", "", none, "", RsyncSpec.zero⟩

/-- The migration relationship record as persisted by migrationRelationship.Save:
Version together with the destination data (nil until Run assigns it). -/
structure MigrationRecord where
  version : Nat
  destination : Option MRD
  deriving DecidableEq, Repr

/-- Result of cobra Flags().GetString: the flag value, or an error when the
flag is not registered on the command. -/
abbrev FlagResult := Except Err String

/-- Embedding of XClusterName, the result of the cross-cluster Locator. -/
structure XClusterName where
  cluster : String
  ns : String
  name : String
  deriving DecidableEq, Repr

/-- Auxiliary structural splitter over the character list: fold from the
right, opening a new segment at each separator. -/
def splitCharAux (sep : Char) : List Char → List (List Char)
  | [] => [[]]
  | c :: cs =>
      match splitCharAux sep cs with
      | [] => [[]]
      | seg :: rest => if c = sep then [] :: seg :: rest else (c :: seg) :: rest

/-- Splitting a string at every occurrence of a separator character (the
strings.Split behaviour the Locator relies on, stated structurally over the
character list). -/
def splitChar (sep : Char) (s : String) : List String :=
  (splitCharAux sep s.data).map String.mk

/-- Modelled from the spec: ParseXClusterName lives in cmd/relationship.go which is
not under src/.  Section 4.1 (Locator): split the identifier on the slash; exactly
two segments are namespace and name with an empty cluster, exactly three segments
are cluster, namespace and name; any other segment count, or an empty namespace or
name after the split, is a MalformedIdentifier error. -/
def parseXClusterName (s : String) : Except Err XClusterName :=
  match splitChar '/' s with
  | [ns, name] =>
      if ns = "" ∨ name = "" then .error "MalformedIdentifier"
      else .ok ⟨"", ns, name⟩
  | [cluster, ns, name] =>
      if ns = "" ∨ name = "" then .error "MalformedIdentifier"
      else .ok ⟨cluster, ns, name⟩
  | _ => .error "MalformedIdentifier"

/-! ## cmd/common_utils.go -/

/-- Embedding of createSecret (cmd/common_utils.go lines 47..58): create the
secret; an IsAlreadyExists error is swallowed (logged, return nil); any other
create error is wrapped and returned. -/
def createSecret (o : CreateOutcome) : Except Err Unit :=
  match o with
  | .ok => .ok ()
  | .alreadyExists => .ok ()
  | .otherError m => .error ("failed to create secret, " ++ m)

/-- Outcome of a client.Delete call: success, a NotFound error, or any other error. -/
inductive DeleteOutcome where
  | ok
  | notFound
  | otherError (msg : String)
  deriving DecidableEq, Repr

/-- Embedding of deleteSecret (cmd/common_utils.go lines 60..78): delete the
secret; a NotFound error is swallowed; any other delete error is wrapped. -/
def deleteSecret (name : String) (o : DeleteOutcome) : Except Err Unit :=
  match o with
  | .ok => .ok ()
  | .notFound => .ok ()
  | .otherError m => .error ("failed to delete secret " ++ name ++ ", " ++ m)

/-- Embedding of persistentVolumeClaim.checkPVCMountStatus
(cmd/common_utils.go lines 107..124).  The input is the outcome of
utils.PodsUsingPVC (pod names, or a lookup error: that helper lives in
controllers/utils which is not under src/, so its outcome is passed in).
A lookup error is wrapped; a non-empty pod list yields the warning error
naming the pvc and the pods; an empty list is success. -/
def checkPVCMountStatus (pvcName : String) (podsUsing : Except Err (List String)) :
    Except Err Unit :=
  match podsUsing with
  | .error e => .error ("failed to fetch the pvc affinity, " ++ e)
  | .ok pods =>
      if pods.length > 0 then
        .error ("WARNING: The pvc " ++ pvcName ++ " is currently in use by following pods,"
          ++ String.intercalate "," pods ++ ", this may result in pvc/data corruption. Aborting Restore")
      else
        .ok ()

/-! ## The cron Schedule Validator

parseCronSpec (cmd/common_utils.go lines 80..87 and unnamed/part_000 lines
171..178) calls the robfig cron parser configured with
Minute | Hour | Dom | Month | Dow | Descriptor.  The parser itself is library
code outside src/. -/

/-- Modelled from the spec: section 4.6, the Schedule Validator accepts the
standard five-field cron grammar (minute, hour, day-of-month, month,
day-of-week) plus named descriptors such as @daily.  The per-field grammar is
approximated as a non-empty word of cron characters; the properties the claims
rely on are that an ordinary five-field expression is accepted and that the
empty expression is not five fields and not a descriptor, hence rejected. -/
def isCronFieldChar (c : Char) : Bool :=
  c.isDigit || c.isAlpha || c = '*' || c = '/' || c = ',' || c = '-' || c = '?'

/-- Modelled from the spec: one field of a five-field cron expression. -/
def isCronField (s : String) : Bool :=
  decide (s ≠ "") && s.data.all isCronFieldChar

/-- Modelled from the spec: the named cron descriptors of the standard grammar. -/
def cronDescriptors : List String :=
  ["@yearly", "@annually", "@monthly", "@weekly", "@daily", "@midnight", "@hourly"]

/-- Modelled from the spec: grammar acceptance for a cron schedule expression,
five whitespace-separated fields or a named descriptor; the empty expression is
rejected. -/
def cronSpecValid (s : String) : Bool :=
  match s.data with
  | [] => false
  | c :: _ =>
      if c = '@' then cronDescriptors.contains s
      else
        match (splitChar ' ' s).filter (fun f => decide (f ≠ "")) with
        | [f1, f2, f3, f4, f5] =>
            isCronField f1 && isCronField f2 && isCronField f3 && isCronField f4 &&
              isCronField f5
        | _ => false

/-- Embedding of parseCronSpec (unnamed/part_000 lines 171..178, identical in
cmd/common_utils.go): run the cron parser on the string; on success return the
string itself, otherwise the parse error. -/
def parseCronSpec (cs : String) : Except Err String :=
  if cronSpecValid cs then .ok cs else .error ("cron parse error on: " ++ cs)

/-! ## The migration create flow

src/kubectl-volsync/cmd/pvbackup.go contains two committed variants of the
migration create command.  Variant A is the file at lines 105..462 of the
concatenation (Run at 208..242); variant B is the file at lines 463..762
(Run at 558..596).  Both are embedded, suffixed A and B. -/

/-- The string flags read by the migration create command, each as the result
of the cobra GetString call for it. -/
structure MigrationFlags where
  copymethod : FlagResult
  pvcname : FlagResult
  capacity : FlagResult
  accessmodes : FlagResult
  storageclass : FlagResult
  servicetype : FlagResult
  deriving Repr

/-- Outcomes of the external calls a migration create run performs, passed in
explicitly: relationship construction from the command (CreateRelationshipFromCommand),
client construction (newClient), the destination PVC Get, the three Creates,
the readiness-wait outcome and the config-file Save. -/
structure MigrationEnv where
  newRelationshipResult : Except Err Unit
  newClientResult : Except Err Unit
  getPVCResult : Except Err PVCObj
  createNSOutcome : CreateOutcome
  createPVCOutcome : CreateOutcome
  createRDOutcome : CreateOutcome
  waitResult : Except Err RsyncStatus
  saveResult : Except Err Unit
  deriving Repr

/-- Embedding of getDestinationPVC (identical in both variants, lines 389..403
and 721..735): Get the PVC; on a nil error return the fetched object, on any
error whatsoever return nil. -/
def getDestinationPVC (getResult : Except Err PVCObj) : Option PVCObj :=
  match getResult with
  | .ok destPVC => some destPVC
  | .error _ => none

/-- Embedding of createNamespace (lines 326..343 and 677..694, identical
bodies): create the namespace; IsAlreadyExists is swallowed (logged, return
nil); any other error is returned. -/
def createNamespace (o : CreateOutcome) : Except Err Unit :=
  match o with
  | .ok => .ok ()
  | .alreadyExists => .ok ()
  | .otherError m => .error m

/-- Embedding of the tail of newMigrationRelationshipDestination, variant A
(lines 311..321): fetch the service type flag, validate it against ClusterIP
and LoadBalancer, store it in the record, and derive MDName as
namespace-pvcname-migration-dest.  The trace argument is the list of cluster
calls made so far, returned unchanged (this step performs none). -/
def serviceTypeStepA (str : FlagResult) (trace : List ClusterOp) (mrd : MRD) :
    Except Err MRD × List ClusterOp :=
  match str with
  | .error e => (.error ("please provide service type, err = " ++ e), trace)
  | .ok st =>
      if st ≠ "ClusterIP" ∧ st ≠ "LoadBalancer" then
        (.error ("unsupported service type: " ++ st), trace)
      else
        (.ok { mrd with
                 destination := { mrd.destination with serviceType := some st }
                 mdName := mrd.ns ++ "-" ++ mrd.pvcName ++ "-migration-dest" },
         trace)

/-- Embedding of the tail of newMigrationRelationshipDestination, variant B
(lines 660..672): fetch the service type flag, validate it against ClusterIP,
NodePort and LoadBalancer, and store it; variant B never assigns MDName. -/
def serviceTypeStepB (str : FlagResult) (trace : List ClusterOp) (mrd : MRD) :
    Except Err MRD × List ClusterOp :=
  match str with
  | .error e => (.error ("please provide service type, err = " ++ e), trace)
  | .ok st =>
      if st ≠ "ClusterIP" ∧ st ≠ "NodePort" ∧ st ≠ "LoadBalancer" then
        (.error ("unsupported service type: " ++ st), trace)
      else
        (.ok { mrd with
                 destination := { mrd.destination with serviceType := some st } },
         trace)

/-- Embedding of newMigrationRelationshipDestination, variant A
(lines 245..324).  The copy method is validated against Direct, Clone and
Snapshot; the pvcname is parsed; a client is built; the destination PVC is
looked up (the single Get in the returned trace); if absent, capacity is
required, the access mode is validated and the storage class flag is taken
as-is; if present, the access modes, capacity (rendered by Storage(), which
yields the zero quantity when the request is unset), storage class and cluster
name are copied from the PVC; the service type is validated against ClusterIP
and LoadBalancer; MDName is derived as namespace-pvcname-migration-dest. -/
def newMigrationRelationshipDestinationA (fl : MigrationFlags) (env : MigrationEnv) :
    Except Err MRD × List ClusterOp :=
  match fl.copymethod with
  | .error e => (.error ("failed to fetch the copy method, err = " ++ e), [])
  | .ok cm =>
      if cm ≠ "Direct" ∧ cm ≠ "Clone" ∧ cm ≠ "Snapshot" then
        (.error ("unsupported copymethod: " ++ cm), [])
      else
        match fl.pvcname with
        | .error e => (.error e, [])
        | .ok pvcname =>
            match parseXClusterName pvcname with
            | .error e => (.error e, [])
            | .ok xcr =>
                match env.newClientResult with
                | .error e => (.error e, [])
                | .ok _ =>
                    let mrd1 : MRD :=
                      { MRD.zero with
                          pvcName := xcr.name
                          ns := xcr.ns
                          destination := { RsyncSpec.zero with copyMethod := cm }
                          pvc := getDestinationPVC env.getPVCResult }
                    let trace := [ClusterOp.getPVC xcr.ns xcr.name]
                    match mrd1.pvc with
                    | none =>
                        let capOk : Option String :=
                          match fl.capacity with
                          | .error _ => none
                          | .ok cap => if cap = "" then none else some cap
                        match capOk with
                        | none =>
                            (.error ("please provide the capacity or create a PVC by name: "
                               ++ mrd1.pvcName), trace)
                        | some cap =>
                            match fl.accessmodes with
                            | .error e => (.error ("failed to fetch access mode, " ++ e), trace)
                            | .ok am =>
                                if am ≠ "ReadWriteOnce" ∧ am ≠ "ReadOnlyMany" ∧
                                    am ≠ "ReadWriteMany" ∧ am ≠ "ReadWriteOncePod" then
                                  (.error ("unsupported access mode: " ++ am), trace)
                                else
                                  let sc : String :=
                                    match fl.storageclass with
                                    | .ok s => s
                                    | .error _ => ""
                                  serviceTypeStepA fl.servicetype trace
                                    { mrd1 with
                                        destination := { mrd1.destination with
                                                           capacity := some cap
                                                           accessModes := [am]
                                                           storageClassName := some sc } }
                    | some pvc =>
                        serviceTypeStepA fl.servicetype trace
                          { mrd1 with
                              cluster := pvc.clusterName
                              destination := { mrd1.destination with
                                                 capacity := some (pvc.storageRequest.getD "0")
                                                 accessModes := pvc.accessModes
                                                 storageClassName := pvc.storageClassName } }

/-- Variant B defaults a failed copymethod flag fetch to Snapshot (lines
602..606); in the committed variant B the copymethod flag is not registered on
the command, so the fetch always fails and the default always applies. -/
def copyMethodOrDefaultB (r : FlagResult) : String :=
  match r with
  | .error _ => "Snapshot"
  | .ok s => s

/-- Variant B defaults a failed or empty accessmodes flag fetch to ReadWriteOnce
(lines 643..647). -/
def accessModeOrDefaultB (r : FlagResult) : String :=
  match r with
  | .error _ => "ReadWriteOnce"
  | .ok s => if s = "" then "ReadWriteOnce" else s

/-- Embedding of newMigrationRelationshipDestination, variant B
(lines 599..675).  Differences from variant A: a failed copymethod flag fetch
silently defaults to Snapshot; the allowed copy methods are None, Clone and
Snapshot; when the PVC already exists nothing is copied from it into the
record; a missing access mode defaults to ReadWriteOnce; the allowed service
types are ClusterIP, NodePort and LoadBalancer; MDName is never assigned. -/
def newMigrationRelationshipDestinationB (fl : MigrationFlags) (env : MigrationEnv) :
    Except Err MRD × List ClusterOp :=
  if copyMethodOrDefaultB fl.copymethod ≠ "None" ∧ copyMethodOrDefaultB fl.copymethod ≠ "Clone" ∧
      copyMethodOrDefaultB fl.copymethod ≠ "Snapshot" then
    (.error ("unsupported copymethod: " ++ copyMethodOrDefaultB fl.copymethod), [])
  else
    match fl.pvcname with
    | .error e => (.error e, [])
    | .ok pvcname =>
        match parseXClusterName pvcname with
        | .error e => (.error e, [])
        | .ok xcr =>
            match env.newClientResult with
            | .error e => (.error e, [])
            | .ok _ =>
                let mrd1 : MRD :=
                  { MRD.zero with
                      pvcName := xcr.name
                      ns := xcr.ns
                      destination := { RsyncSpec.zero with
                                         copyMethod := copyMethodOrDefaultB fl.copymethod }
                      pvc := getDestinationPVC env.getPVCResult }
                let trace := [ClusterOp.getPVC xcr.ns xcr.name]
                match mrd1.pvc with
                | none =>
                    let capOk : Option String :=
                      match fl.capacity with
                      | .error _ => none
                      | .ok cap => if cap = "" then none else some cap
                    match capOk with
                    | none =>
                        (.error "please provide capacity or provide name of exiting pvc", trace)
                    | some cap =>
                        if accessModeOrDefaultB fl.accessmodes ≠ "ReadWriteOnce" ∧
                            accessModeOrDefaultB fl.accessmodes ≠ "ReadOnlyMany" ∧
                            accessModeOrDefaultB fl.accessmodes ≠ "ReadWriteMany" ∧
                            accessModeOrDefaultB fl.accessmodes ≠ "ReadWriteOncePod" then
                          (.error ("unsupported access mode: " ++ accessModeOrDefaultB fl.accessmodes),
                           trace)
                        else
                          serviceTypeStepB fl.servicetype trace
                            { mrd1 with
                                destination := { mrd1.destination with
                                                   capacity := some cap
                                                   accessModes := [accessModeOrDefaultB fl.accessmodes] } }
                | some _ => serviceTypeStepB fl.servicetype trace mrd1

/-- Embedding of createDestinationPVC, variant A (lines 345..387): build the
PVC from the record (the storage class is omitted from the object when the
recorded pointer dereferences to the empty string), create it, propagate every
create error (including IsAlreadyExists) unwrapped; on success write the built
object back (model: into the pvc field) and overwrite the recorded storage
class with the created object's. -/
def createDestinationPVC_A (o : CreateOutcome) (mrd : MRD) : Except Err MRD :=
  let scn : Option String :=
    if mrd.destination.storageClassName.getD "" = "" then none
    else mrd.destination.storageClassName
  let destPVC : PVCObj :=
    ⟨mrd.destination.accessModes, mrd.destination.capacity, scn, ""⟩
  match o with
  | .ok =>
      .ok { mrd with
              pvc := some destPVC
              destination := { mrd.destination with storageClassName := scn } }
  | .alreadyExists => .error "AlreadyExists"
  | .otherError m => .error m

/-- Embedding of createDestinationPVC, variant B (lines 696..719): build the
PVC from the record (no storage class handling at all in this variant), create
it, propagate every create error unwrapped; on success store the built object. -/
def createDestinationPVC_B (o : CreateOutcome) (mrd : MRD) : Except Err MRD :=
  let destPVC : PVCObj :=
    ⟨mrd.destination.accessModes, mrd.destination.capacity, none, ""⟩
  match o with
  | .ok => .ok { mrd with pvc := some destPVC }
  | .alreadyExists => .error "AlreadyExists"
  | .otherError m => .error m

/-- Embedding of createDestination, variant A (lines 405..462): create the
ReplicationDestination named MDName (every create error, including
IsAlreadyExists, propagates), then poll until its status reports an rsync
address and ssh keys.  The polling loop is abstracted to its outcome
(waitResult; its reads are represented by one getRD trace event); on success
the address, port and ssh keys are copied into the record. -/
def createDestinationA (o : CreateOutcome) (waitResult : Except Err RsyncStatus)
    (mrd : MRD) : Except Err MRD × List ClusterOp :=
  match o with
  | .alreadyExists => (.error "AlreadyExists", [.createRD mrd.ns mrd.mdName])
  | .otherError m => (.error m, [.createRD mrd.ns mrd.mdName])
  | .ok =>
      match waitResult with
      | .error e => (.error e, [.createRD mrd.ns mrd.mdName, .getRD mrd.ns mrd.mdName])
      | .ok st =>
          (.ok { mrd with
                   destination := { mrd.destination with
                                      address := st.address
                                      port := st.port
                                      sshKeys := st.sshKeys } },
           [.createRD mrd.ns mrd.mdName, .getRD mrd.ns mrd.mdName])

/-- Embedding of CreateDestination, variant B (lines 737..762): derive the
object name as namespace-pvcname-replication-dest, create the
ReplicationDestination (every create error, including IsAlreadyExists,
propagates), and return; this variant performs no readiness wait. -/
def CreateDestinationB (o : CreateOutcome) (mrd : MRD) :
    Except Err Unit × List ClusterOp :=
  let rdName := mrd.ns ++ "-" ++ mrd.pvcName ++ "-replication-dest"
  (match o with
   | .ok => .ok ()
   | .alreadyExists => .error "AlreadyExists"
   | .otherError m => .error m,
   [.createRD mrd.ns rdName])

/-- Embedding of migrationCreate.Run, variant A (lines 208..242): build the
relationship, build the destination record (validations plus the PVC lookup),
create the namespace, create the PVC only when the lookup found none, create
the ReplicationDestination and wait for it, then assign the destination into
the relationship data and Save.  Every step error propagates to the caller and
the record is persisted only by the final Save.  The result carries the run
outcome, the trace of cluster calls, and the list of records actually written
to the config store. -/
def migrationCreateRunA (fl : MigrationFlags) (env : MigrationEnv) :
    Except Err Unit × List ClusterOp × List MigrationRecord :=
  match env.newRelationshipResult with
  | .error e => (.error e, [], [])
  | .ok _ =>
      match newMigrationRelationshipDestinationA fl env with
      | (.error e, tr) => (.error e, tr, [])
      | (.ok mrd, tr) =>
          match createNamespace env.createNSOutcome with
          | .error e => (.error e, tr ++ [.createNS mrd.ns], [])
          | .ok _ =>
              let tr1 := tr ++ [ClusterOp.createNS mrd.ns]
              let pvcStep : Except Err MRD × List ClusterOp :=
                match mrd.pvc with
                | some _ => (.ok mrd, [])
                | none => (createDestinationPVC_A env.createPVCOutcome mrd,
                           [ClusterOp.createPVC mrd.ns mrd.pvcName])
              match pvcStep with
              | (.error e, tr2) => (.error e, tr1 ++ tr2, [])
              | (.ok mrd2, tr2) =>
                  match createDestinationA env.createRDOutcome env.waitResult mrd2 with
                  | (.error e, tr3) => (.error e, tr1 ++ tr2 ++ tr3, [])
                  | (.ok mrd3, tr3) =>
                      match env.saveResult with
                      | .error e =>
                          (.error ("unable to save relationship configuration: " ++ e),
                           tr1 ++ tr2 ++ tr3, [])
                      | .ok _ => (.ok (), tr1 ++ tr2 ++ tr3, [⟨1, some mrd3⟩])

/-- Embedding of migrationCreate.Run, variant B (lines 558..596): build the
relationship and immediately Save it (before the destination is built, so the
persisted record has no destination data); then build the destination record,
create the namespace, create the PVC when absent, and create the
ReplicationDestination — but every error from these later steps is discarded
(the code returns nil instead of the error), so the command reports success.
The destination is never assigned into the relationship data and Save is never
called again. -/
def migrationCreateRunB (fl : MigrationFlags) (env : MigrationEnv) :
    Except Err Unit × List ClusterOp × List MigrationRecord :=
  match env.newRelationshipResult with
  | .error e => (.error e, [], [])
  | .ok _ =>
      match env.saveResult with
      | .error e => (.error ("unable to save relationship configuration: " ++ e), [], [])
      | .ok _ =>
          let saved : List MigrationRecord := [⟨1, none⟩]
          match newMigrationRelationshipDestinationB fl env with
          | (.error _, tr) => (.ok (), tr, saved)
          | (.ok mrd, tr) =>
              match createNamespace env.createNSOutcome with
              | .error _ => (.ok (), tr ++ [.createNS mrd.ns], saved)
              | .ok _ =>
                  let tr1 := tr ++ [ClusterOp.createNS mrd.ns]
                  let pvcStep : Except Err MRD × List ClusterOp :=
                    match mrd.pvc with
                    | some _ => (.ok mrd, [])
                    | none => (createDestinationPVC_B env.createPVCOutcome mrd,
                               [ClusterOp.createPVC mrd.ns mrd.pvcName])
                  match pvcStep with
                  | (.error _, tr2) => (.ok (), tr1 ++ tr2, saved)
                  | (.ok mrd2, tr2) =>
                      match CreateDestinationB env.createRDOutcome mrd2 with
                      | (_, tr3) => (.ok (), tr1 ++ tr2 ++ tr3, saved)

/-! ## The pv-backup create flow (src/unnamed/part_000) -/

/-- The restic credential config file as seen through os.Stat and viper:
whether it exists, whether it reads, and the key/value pairs it holds
(viper values are modelled as strings, which is what the flow stores). -/
structure ResticFile where
  present : Bool
  readable : Except Err Unit
  values : List (String × String)
  deriving Repr

/-- Lookup of a key in the parsed restic config (viper Get). -/
def resticLookup (vals : List (String × String)) (k : String) : Option String :=
  (vals.find? (fun p => p.fst = k)).map Prod.snd

/-- Embedding of parseResticConfig (unnamed/part_000 lines 147..169): a missing
file or unreadable file is an error, and each of the four credential keys
(AWS_ACCESS_KEY_ID, AWS_SECRET_ACCESS_KEY, RESTIC_REPOSITORY, RESTIC_PASSWORD)
must be present or the parse fails with ErrInvalid. -/
def parseResticConfig (f : ResticFile) : Except Err (List (String × String)) :=
  if f.present = false then .error "file does not exist"
  else
    match f.readable with
    | .error e => .error ("unable to read in config file, " ++ e)
    | .ok _ =>
        if (resticLookup f.values "AWS_ACCESS_KEY_ID").isNone ∨
            (resticLookup f.values "AWS_SECRET_ACCESS_KEY").isNone ∨
            (resticLookup f.values "RESTIC_REPOSITORY").isNone ∨
            (resticLookup f.values "RESTIC_PASSWORD").isNone then
          .error "invalid argument: necessary configurations missing"
        else
          .ok f.values

/-- The string flags read by the pv-backup create command. -/
structure BackupFlags where
  pvcname : FlagResult
  name : FlagResult
  resticConfigFlag : FlagResult
  cronspec : FlagResult
  deriving Repr

/-- The fields of pvBackupCreate populated by parseCLI that the rest of the
flow reads. -/
structure ParsedBackup where
  cluster : String
  ns : String
  sourcePVC : String
  name : String
  rsName : String
  repository : String
  schedule : String
  deriving DecidableEq, Repr

/-- Embedding of pvBackupCreate.parseCLI (unnamed/part_000 lines 97..145):
fetch and parse the pvcname (an empty value is an error), fetch the backup
name, derive RSName as name-backup-source, load and validate the restic
config, read RESTIC_REPOSITORY, then fetch the cronspec and validate it
unconditionally with parseCronSpec — including when the cronspec flag was
omitted and is the empty string.  The branch where RESTIC_REPOSITORY fails the
string type assertion returns the current (nil) err, i.e. success with the
remaining fields unset; after parseResticConfig it is unreachable in this
model, whose viper values are all strings. -/
def pvBackupParseCLI (fl : BackupFlags) (cfg : ResticFile) : Except Err ParsedBackup :=
  let pvcnameOk : Option String :=
    match fl.pvcname with
    | .error _ => none
    | .ok p => if p = "" then none else some p
  match pvcnameOk with
  | none => .error "failed to fetch the pvcname"
  | some p =>
      match parseXClusterName p with
      | .error e => .error ("failed to parse cluster name from pvcname, err = " ++ e)
      | .ok xcr =>
          match fl.name with
          | .error e => .error ("failed to fetch the backup name, err = " ++ e)
          | .ok backupName =>
              match fl.resticConfigFlag with
              | .error e => .error ("failed to fetch the restic-config, err = " ++ e)
              | .ok _fname =>
                  match parseResticConfig cfg with
                  | .error e => .error e
                  | .ok vals =>
                      match resticLookup vals "RESTIC_REPOSITORY" with
                      | none =>
                          .ok ⟨xcr.cluster, xcr.ns, xcr.name, backupName,
                               backupName ++ "-backup-source", "", ""⟩
                      | some repository =>
                          match fl.cronspec with
                          | .error e => .error ("failed to fetch the cronspec, err = " ++ e)
                          | .ok cronSpec =>
                              match parseCronSpec cronSpec with
                              | .error e => .error ("failed to parse the cronspec, err = " ++ e)
                              | .ok cs =>
                                  .ok ⟨xcr.cluster, xcr.ns, xcr.name, backupName,
                                       backupName ++ "-backup-source", repository, cs⟩

/-- Embedding of pvBackupRelationshipSource: the source-side state persisted in
the pv-backup relationship record. -/
structure PVBackupSource where
  cluster : String
  ns : String
  pvcName : String
  rsName : String
  repository : String
  schedule : Option String
  deriving DecidableEq, Repr

/-- Embedding of pvBackupCreate.newPVBackupRelationship (unnamed/part_000
lines 221..233): copy the parsed fields into the source record; the trigger
schedule is a pointer to the parsed schedule string. -/
def newPVBackupRelationshipSource (pc : ParsedBackup) : PVBackupSource :=
  ⟨pc.cluster, pc.ns, pc.sourcePVC, pc.rsName, pc.repository, some pc.schedule⟩

/-- Embedding of pvBackupCreate.ensureSecret (unnamed/part_000 lines 235..253):
create the credential secret and propagate every create error — including
IsAlreadyExists, which this function, unlike the createSecret helper of
cmd/common_utils.go, does not swallow. -/
def ensureSecret (o : CreateOutcome) : Except Err Unit :=
  match o with
  | .ok => .ok ()
  | .alreadyExists => .error "AlreadyExists"
  | .otherError m => .error m

/-- Embedding of pvBackupCreate.ensureReplicationSource (unnamed/part_000
lines 255..285): create the ReplicationSource intent object and propagate
every create error, including IsAlreadyExists. -/
def ensureReplicationSource (o : CreateOutcome) : Except Err Unit :=
  match o with
  | .ok => .ok ()
  | .alreadyExists => .error "AlreadyExists"
  | .otherError m => .error m

/-- Embedding of pvBackupRelationshipData.waitForRSStatus (unnamed/part_000
lines 287..312) at the level of its outcome: the polling loop is abstracted to
whether it returned an object or an error, and an error is wrapped as a failed
status fetch. -/
def waitForRSStatusStep (w : Except Err Unit) : Except Err Unit :=
  match w with
  | .error e => .error ("failed to fetch rs status: " ++ e ++ ",")
  | .ok _ => .ok ()

/-- The pv-backup relationship record persisted by pvBackupRelationship.Save. -/
structure BackupRecord where
  version : Nat
  source : Option PVBackupSource
  deriving DecidableEq, Repr

/-- Outcomes of the external calls a pv-backup create run performs. -/
structure BackupEnv where
  newClientResult : Except Err Unit
  createSecretOutcome : CreateOutcome
  createRSOutcome : CreateOutcome
  waitRSResult : Except Err Unit
  saveResult : Except Err Unit
  deriving Repr

/-- Embedding of pvBackupCreate.Run (unnamed/part_000 lines 180..219): build
the client, assemble the source record in memory, ensure the credential
secret (errors wrapped as a failed secret create), create the
ReplicationSource, wait for its status, and only then Save the relationship
record; every step error propagates and the record is persisted only by the
final Save.  The deletion of the local restic config file after a successful
run is best-effort local cleanup and is not modelled. -/
def pvBackupCreateRun (pc : ParsedBackup) (env : BackupEnv) :
    Except Err Unit × List ClusterOp × List BackupRecord :=
  match env.newClientResult with
  | .error e => (.error e, [], [])
  | .ok _ =>
      let src := newPVBackupRelationshipSource pc
      match ensureSecret env.createSecretOutcome with
      | .error e =>
          (.error ("failed to create secrete, " ++ e), [.createSecret pc.ns pc.name], [])
      | .ok _ =>
          match ensureReplicationSource env.createRSOutcome with
          | .error e =>
              (.error e, [.createSecret pc.ns pc.name, .createRS pc.ns pc.rsName], [])
          | .ok _ =>
              let tr := [ClusterOp.createSecret pc.ns pc.name,
                         ClusterOp.createRS pc.ns pc.rsName,
                         ClusterOp.getRS pc.ns pc.rsName]
              match waitForRSStatusStep env.waitRSResult with
              | .error e => (.error e, tr, [])
              | .ok _ =>
                  match env.saveResult with
                  | .error e =>
                      (.error ("unable to save relationship configuration: " ++ e), tr, [])
                  | .ok _ => (.ok (), tr, [⟨1, some src⟩])

/-! ## The Readiness Waiter -/

/-- Result of a readiness wait: the object once the predicate held, the first
fetch error, or a timeout. -/
inductive WaitResult (α : Type) where
  | ready (o : α)
  | fetchError (e : Err)
  | timeout
  deriving DecidableEq, Repr

/-- Modelled from the spec: section 4.5, the Readiness Waiter loop body (the
call sites in src delegate the loop to wait.PollImmediate, library code outside
src/).  fetch k is the outcome of the k-th fetch; pred is the call-site
condition.  Each cycle attempts the fetch: a fetch error aborts immediately, a
fetched object satisfying the predicate is returned, otherwise the loop sleeps
one interval and retries while fuel remains.  The second component counts the
fetches performed. -/
def waitUntilGo (fetch : Nat → Except Err α) (pred : α → Bool) :
    Nat → Nat → WaitResult α × Nat
  | k, 0 => (.timeout, k)
  | k, fuel + 1 =>
      match fetch k with
      | .error e => (.fetchError e, k + 1)
      | .ok o => if pred o then (.ready o, k + 1) else waitUntilGo fetch pred (k + 1) fuel

/-- Modelled from the spec: section 4.5, waitUntil.  The first fetch happens
immediately; cycle k starts at elapsed time k * interval, and a cycle is
attempted exactly while its start time has not passed the timeout, so the
cycles are k = 0 .. timeout / interval and a timeout failure occurs only after
the cumulative elapsed time has exceeded the bound. -/
def waitUntil (fetch : Nat → Except Err α) (pred : α → Bool)
    (interval timeout : Nat) : WaitResult α × Nat :=
  waitUntilGo fetch pred 0 (timeout / interval + 1)

/-! ## Concrete fixtures for evaluations -/

/-- A sample pre-existing destination PVC. -/
def pvcSample : PVCObj := ⟨["ReadWriteMany"], some "5Gi", some "fast", "clusterA"⟩

/-- Migration create flags with a given capacity value and otherwise valid
values (Snapshot copy method, pvcname ns1/vol1, ReadWriteOnce, ClusterIP). -/
def flagsWithCapacity (cap : String) : MigrationFlags :=
  ⟨.ok "Snapshot", .ok "ns1/vol1", .ok cap, .ok "ReadWriteOnce", .ok "", .ok "ClusterIP"⟩

/-- An environment where every external call succeeds and the destination PVC
lookup has the given outcome. -/
def sampleEnv (g : Except Err PVCObj) : MigrationEnv :=
  ⟨.ok (), .ok (), g, .ok, .ok, .ok, .ok ⟨some "10.2.3.4", some 22, some "keys"⟩, .ok ()⟩

/-- A parsed pv-backup create input used for concrete evaluations. -/
def pcSample : ParsedBackup :=
  ⟨"", "ns1", "vol1", "nightly", "nightly-backup-source", "s3:http://bucket/repo", "0 2 * * *"⟩

/-- The flag set of a deployed variant B migration create command: the
copymethod flag is not registered there (its fetch errors and the value
defaults to Snapshot), and the user passed an unsupported service type. -/
def flagsVariantB : MigrationFlags :=
  ⟨.error "flag accessed but not defined: copymethod", .ok "ns1/vol1", .ok "10Gi",
   .ok "", .ok "", .ok "ExternalName"⟩

/-- A restic credential file holding all four required keys. -/
def resticFileSample : ResticFile :=
  ⟨true, .ok (), [("AWS_ACCESS_KEY_ID", "id"), ("AWS_SECRET_ACCESS_KEY", "secret"),
    ("RESTIC_REPOSITORY", "s3:http://bucket/repo"), ("RESTIC_PASSWORD", "pw")]⟩

/-- The pv-backup create flags with a given cronspec value. -/
def backupFlagsCron (cs : String) : BackupFlags :=
  ⟨.ok "ns1/vol1", .ok "nightly", .ok "restic.conf", .ok cs⟩

/-- Migration flags carrying an unsupported copy method and an unsupported
service type. -/
def flagsBadOptions : MigrationFlags :=
  ⟨.ok "Rsync", .ok "ns1/vol1", .ok "10Gi", .ok "ReadWriteOnce", .ok "", .ok "ExternalName"⟩

/-- The record of a destination in namespace ns1 for PVC vol1, as variant B
passes it to CreateDestination. -/
def mrdNs1Vol1 : MRD := { MRD.zero with ns := "ns1", pvcName := "vol1" }

/-- The destination record variant A builds from the sample flags when the
sample PVC already exists. -/
def mrdSampleA : MRD :=
  ⟨"clusterA", "ns1", "vol1", some pvcSample, "ns1-vol1-migration-dest",
   ⟨"Snapshot", some "5Gi", ["ReadWriteMany"], some "fast", some "ClusterIP",
    none, none, none⟩⟩

/-! ## Helper lemmas -/

/-- A successful service-type step in variant A means the flag held ClusterIP
or LoadBalancer, the trace is returned unchanged, and the record gains exactly
the service type and the derived MDName. -/
theorem serviceTypeStepA_cases (str : FlagResult) (trace : List ClusterOp)
    (mrd mrd2 : MRD) (tr2 : List ClusterOp)
    (h : serviceTypeStepA str trace mrd = (.ok mrd2, tr2)) :
    ∃ st, str = .ok st ∧ (st = "ClusterIP" ∨ st = "LoadBalancer") ∧ tr2 = trace ∧
      mrd2 = { mrd with
                 destination := { mrd.destination with serviceType := some st }
                 mdName := mrd.ns ++ "-" ++ mrd.pvcName ++ "-migration-dest" } := by
  unfold serviceTypeStepA at h
  repeat' split at h
  all_goals simp_all
  all_goals tauto

/-- A successful service-type step in variant B means the flag held ClusterIP,
NodePort or LoadBalancer, the trace is returned unchanged, and the record
gains exactly the service type. -/
theorem serviceTypeStepB_cases (str : FlagResult) (trace : List ClusterOp)
    (mrd mrd2 : MRD) (tr2 : List ClusterOp)
    (h : serviceTypeStepB str trace mrd = (.ok mrd2, tr2)) :
    ∃ st, str = .ok st ∧ (st = "ClusterIP" ∨ st = "NodePort" ∨ st = "LoadBalancer") ∧
      tr2 = trace ∧
      mrd2 = { mrd with
                 destination := { mrd.destination with serviceType := some st } } := by
  unfold serviceTypeStepB at h
  repeat' split at h
  all_goals simp_all
  all_goals tauto

/-- A successful destination build in variant A pins down the record: the PVC
field holds exactly the lookup result, the service type passed its validation,
MDName carries the migration-dest naming scheme, when no PVC was found the
capacity came from a non-empty capacity flag, and when a PVC was found its
access modes, capacity, storage class and cluster name were copied in. -/
theorem newMRD_A_ok_cases (fl : MigrationFlags) (env : MigrationEnv) (mrd : MRD)
    (tr : List ClusterOp)
    (h : newMigrationRelationshipDestinationA fl env = (.ok mrd, tr)) :
    mrd.pvc = getDestinationPVC env.getPVCResult ∧
    (∃ st, fl.servicetype = .ok st ∧ (st = "ClusterIP" ∨ st = "LoadBalancer") ∧
      mrd.destination.serviceType = some st) ∧
    mrd.mdName = mrd.ns ++ "-" ++ mrd.pvcName ++ "-migration-dest" ∧
    (getDestinationPVC env.getPVCResult = none →
      ∃ cap, fl.capacity = .ok cap ∧ cap ≠ "" ∧ mrd.destination.capacity = some cap) ∧
    (∀ pvc, getDestinationPVC env.getPVCResult = some pvc →
      mrd.destination.capacity = some (pvc.storageRequest.getD "0") ∧
      mrd.destination.accessModes = pvc.accessModes ∧
      mrd.destination.storageClassName = pvc.storageClassName ∧
      mrd.cluster = pvc.clusterName) := by
  rcases hg : getDestinationPVC env.getPVCResult with _ | pvc
  all_goals unfold newMigrationRelationshipDestinationA at h
  all_goals rw [hg] at h
  all_goals repeat' (first | split at h | dsimp only at h)
  all_goals try exact absurd h (by simp)
  all_goals obtain ⟨st, hst, hval, htr, hmrd⟩ := serviceTypeStepA_cases _ _ _ _ _ h
  all_goals subst hmrd
  all_goals refine ⟨by simp [hg], ⟨st, hst, hval, by simp [MRD.zero, RsyncSpec.zero]⟩,
    by simp [MRD.zero, RsyncSpec.zero], ?_, ?_⟩
  all_goals simp_all [MRD.zero, RsyncSpec.zero]

/-- A successful destination build in variant B pins down the record: the PVC
field holds exactly the lookup result, the service type passed its (three
value) validation, MDName is never assigned, when no PVC was found the
capacity came from a non-empty capacity flag, and when a PVC was found none of
its fields were copied into the record (capacity, access modes, storage class
and cluster stay at their zero values). -/
theorem newMRD_B_ok_cases (fl : MigrationFlags) (env : MigrationEnv) (mrd : MRD)
    (tr : List ClusterOp)
    (h : newMigrationRelationshipDestinationB fl env = (.ok mrd, tr)) :
    mrd.pvc = getDestinationPVC env.getPVCResult ∧
    (∃ st, fl.servicetype = .ok st ∧
      (st = "ClusterIP" ∨ st = "NodePort" ∨ st = "LoadBalancer") ∧
      mrd.destination.serviceType = some st) ∧
    mrd.mdName = "" ∧
    (getDestinationPVC env.getPVCResult = none →
      ∃ cap, fl.capacity = .ok cap ∧ cap ≠ "" ∧ mrd.destination.capacity = some cap) ∧
    (∀ pvc, getDestinationPVC env.getPVCResult = some pvc →
      mrd.destination.capacity = none ∧
      mrd.destination.accessModes = [] ∧
      mrd.destination.storageClassName = none ∧
      mrd.cluster = "") := by
  rcases hg : getDestinationPVC env.getPVCResult with _ | pvc
  all_goals unfold newMigrationRelationshipDestinationB at h
  all_goals rw [hg] at h
  all_goals repeat' (first | split at h | dsimp only at h)
  all_goals try exact absurd h (by simp)
  all_goals obtain ⟨st, hst, hval, htr, hmrd⟩ := serviceTypeStepB_cases _ _ _ _ _ h
  all_goals subst hmrd
  all_goals refine ⟨by simp [hg], ⟨st, hst, hval, by simp [MRD.zero, RsyncSpec.zero]⟩,
    by simp [MRD.zero, RsyncSpec.zero], ?_, ?_⟩
  all_goals simp_all [MRD.zero, RsyncSpec.zero]

/-- The service-type step of variant A never touches the cluster: it returns
the trace it was given. -/
theorem serviceTypeStepA_snd (str : FlagResult) (trace : List ClusterOp) (mrd : MRD) :
    (serviceTypeStepA str trace mrd).snd = trace := by
  unfold serviceTypeStepA
  repeat' split
  all_goals rfl

/-- The service-type step of variant B never touches the cluster: it returns
the trace it was given. -/
theorem serviceTypeStepB_snd (str : FlagResult) (trace : List ClusterOp) (mrd : MRD) :
    (serviceTypeStepB str trace mrd).snd = trace := by
  unfold serviceTypeStepB
  repeat' split
  all_goals rfl

/-- The destination build of variant A performs at most the single PVC Get:
its trace is empty or one getPVC call. -/
theorem newMRD_A_trace (fl : MigrationFlags) (env : MigrationEnv) :
    (newMigrationRelationshipDestinationA fl env).snd = [] ∨
    ∃ ns n, (newMigrationRelationshipDestinationA fl env).snd = [ClusterOp.getPVC ns n] := by
  unfold newMigrationRelationshipDestinationA
  repeat' (first | split | dsimp only)
  all_goals first
    | exact Or.inl rfl
    | exact Or.inr ⟨_, _, rfl⟩
    | (rw [serviceTypeStepA_snd]; exact Or.inr ⟨_, _, rfl⟩)

/-- The destination build of variant B performs at most the single PVC Get:
its trace is empty or one getPVC call. -/
theorem newMRD_B_trace (fl : MigrationFlags) (env : MigrationEnv) :
    (newMigrationRelationshipDestinationB fl env).snd = [] ∨
    ∃ ns n, (newMigrationRelationshipDestinationB fl env).snd = [ClusterOp.getPVC ns n] := by
  unfold newMigrationRelationshipDestinationB
  repeat' (first | split | dsimp only)
  all_goals first
    | exact Or.inl rfl
    | exact Or.inr ⟨_, _, rfl⟩
    | (rw [serviceTypeStepB_snd]; exact Or.inr ⟨_, _, rfl⟩)

/-- When the destination build of variant A fails, the whole run of variant A
performs no mutating cluster call. -/
theorem runA_fail_no_mutation (fl : MigrationFlags) (env : MigrationEnv)
    (hfail : ∀ mrd tr, newMigrationRelationshipDestinationA fl env ≠ (.ok mrd, tr)) :
    ∀ op ∈ (migrationCreateRunA fl env).2.1, op.isMutating = false := by
  intro op hop
  unfold migrationCreateRunA at hop
  rcases hrel : env.newRelationshipResult with e | u
  · rw [hrel] at hop
    simp at hop
  · rw [hrel] at hop
    rcases hmrd : newMigrationRelationshipDestinationA fl env with ⟨res, tr⟩
    rcases res with e | mrd
    · rw [hmrd] at hop
      dsimp at hop
      have htr := newMRD_A_trace fl env
      rw [hmrd] at htr
      rcases htr with h0 | ⟨ns, n, h1⟩
      · dsimp at h0
        subst h0
        simp at hop
      · dsimp at h1
        subst h1
        simp at hop
        subst hop
        rfl
    · exact absurd hmrd (hfail mrd tr)

/-- When the destination build of variant B fails, the whole run of variant B
performs no mutating cluster call (even though the run reports success). -/
theorem runB_fail_no_mutation (fl : MigrationFlags) (env : MigrationEnv)
    (hfail : ∀ mrd tr, newMigrationRelationshipDestinationB fl env ≠ (.ok mrd, tr)) :
    ∀ op ∈ (migrationCreateRunB fl env).2.1, op.isMutating = false := by
  intro op hop
  unfold migrationCreateRunB at hop
  rcases hrel : env.newRelationshipResult with e | u
  · rw [hrel] at hop
    simp at hop
  · rw [hrel] at hop
    rcases hsave : env.saveResult with e | u2
    · rw [hsave] at hop
      simp at hop
    · rw [hsave] at hop
      rcases hmrd : newMigrationRelationshipDestinationB fl env with ⟨res, tr⟩
      rcases res with e | mrd
      · rw [hmrd] at hop
        dsimp at hop
        have htr := newMRD_B_trace fl env
        rw [hmrd] at htr
        rcases htr with h0 | ⟨ns, n, h1⟩
        · dsimp at h0
          subst h0
          simp at hop
        · dsimp at h1
          subst h1
          simp at hop
          subst hop
          rfl
      · exact absurd hmrd (hfail mrd tr)

/-- The ReplicationDestination step of variant A emits the create of the
MDName object, optionally followed by the status read. -/
theorem createDestinationA_trace (o : CreateOutcome) (w : Except Err RsyncStatus) (mrd : MRD) :
    (createDestinationA o w mrd).snd = [ClusterOp.createRD mrd.ns mrd.mdName] ∨
    (createDestinationA o w mrd).snd =
      [ClusterOp.createRD mrd.ns mrd.mdName, ClusterOp.getRD mrd.ns mrd.mdName] := by
  unfold createDestinationA
  repeat' split
  all_goals simp

/-! ## Claims -/

/-- C9: checkPVCMountStatus succeeds exactly when the pod lookup succeeded
with no pod using the PVC; a failed lookup is surfaced as a wrapped error, and
a non-empty list of mounting pods yields the warning error that names the pvc
and the mounting pods — the unstated restore-safety gate. -/
theorem checkPVCMountStatus_spec (n : String) :
    (∀ r : Except Err (List String), checkPVCMountStatus n r = .ok () ↔ r = .ok []) ∧
    (∀ e, checkPVCMountStatus n (.error e) =
      .error ("failed to fetch the pvc affinity, " ++ e)) ∧
    (∀ p ps, checkPVCMountStatus n (.ok (p :: ps)) =
      .error ("WARNING: The pvc " ++ n ++ " is currently in use by following pods,"
        ++ String.intercalate "," (p :: ps)
        ++ ", this may result in pvc/data corruption. Aborting Restore")) := by
  refine ⟨?_, ?_, ?_⟩
  · intro r
    rcases r with e | l
    · simp [checkPVCMountStatus]
    · rcases l with _ | ⟨p, ps⟩
      · simp [checkPVCMountStatus]
      · simp [checkPVCMountStatus]
  · intro e
    rfl
  · intro p ps
    simp [checkPVCMountStatus]

/-- C10: getDestinationPVC returns nil on every Get error, whatever its
cause, so the migration create flow cannot tell a missing PVC from a failed
lookup: under any lookup error the destination build takes the creation
branch, failing with the missing-capacity message when no capacity was given,
and otherwise building the record from the flags and going on to create the
PVC (a createPVC call appears in the run trace). -/
theorem getDestinationPVC_error_routes_to_creation :
    (∀ e, getDestinationPVC (.error e) = none) ∧
    (∀ e, newMigrationRelationshipDestinationA (flagsWithCapacity "") (sampleEnv (.error e)) =
      (.error "please provide the capacity or create a PVC by name: vol1",
       [ClusterOp.getPVC "ns1" "vol1"])) ∧
    (∀ e, ∃ mrd, newMigrationRelationshipDestinationA (flagsWithCapacity "10Gi")
        (sampleEnv (.error e)) = (.ok mrd, [ClusterOp.getPVC "ns1" "vol1"]) ∧
      mrd.pvc = none ∧ mrd.destination.capacity = some "10Gi") ∧
    (∀ e, ClusterOp.createPVC "ns1" "vol1" ∈
      (migrationCreateRunA (flagsWithCapacity "10Gi") (sampleEnv (.error e))).2.1) := by
  refine ⟨fun e => rfl, fun e => by rfl, fun e => ⟨_, rfl, rfl, rfl⟩, fun e => ?_⟩
  have h : (migrationCreateRunA (flagsWithCapacity "10Gi") (sampleEnv (.error e))).2.1 =
      [ClusterOp.getPVC "ns1" "vol1", ClusterOp.createNS "ns1",
       ClusterOp.createPVC "ns1" "vol1",
       ClusterOp.createRD "ns1" "ns1-vol1-migration-dest",
       ClusterOp.getRD "ns1" "ns1-vol1-migration-dest"] := rfl
  rw [h]
  simp

/-- C3 counterexample: an already-exists failure of the credential-secret
create in the pv-backup flow is not swallowed: ensureSecret propagates it, the
whole create run fails with the wrapped secret error, and no record is
persisted — contradicting the claim that an already-exists on every
credential-secret create is swallowed and returns success. -/
theorem ensureSecret_alreadyExists_fatal :
    ensureSecret .alreadyExists = .error "AlreadyExists" ∧
    pvBackupCreateRun pcSample ⟨.ok (), .alreadyExists, .ok, .ok (), .ok ()⟩ =
      (.error "failed to create secrete, AlreadyExists",
       [ClusterOp.createSecret "ns1" "nightly"], []) :=
  ⟨rfl, rfl⟩

/-- C3 (amended): already-exists is swallowed exactly by namespace creation
and by the createSecret helper of common_utils; the pv-backup flow creates its
credential secret through ensureSecret, which propagates already-exists as
fatal, and the intent-object creates (ReplicationSource in the backup flow,
ReplicationDestination in both migration variants) also surface already-exists
as fatal; other create errors always propagate, and a namespace already-exists
does not stop a migration create run. -/
theorem alreadyExists_policy :
    createNamespace .alreadyExists = .ok () ∧
    createSecret .alreadyExists = .ok () ∧
    ensureSecret .alreadyExists = .error "AlreadyExists" ∧
    ensureReplicationSource .alreadyExists = .error "AlreadyExists" ∧
    (∀ w mrd, (createDestinationA .alreadyExists w mrd).fst = .error "AlreadyExists") ∧
    (∀ mrd, (CreateDestinationB .alreadyExists mrd).fst = .error "AlreadyExists") ∧
    (∀ m, createNamespace (.otherError m) = .error m) ∧
    (∀ m, createSecret (.otherError m) = .error ("failed to create secret, " ++ m)) ∧
    (∀ m, ensureSecret (.otherError m) = .error m) ∧
    (migrationCreateRunA (flagsWithCapacity "10Gi")
        { sampleEnv (.ok pvcSample) with createNSOutcome := .alreadyExists }).fst = .ok () :=
  ⟨rfl, rfl, rfl, rfl, fun w mrd => rfl, fun mrd => rfl, fun m => rfl, fun m => rfl,
   fun m => rfl, by rfl⟩

/-- C1: in the variant B migration create run the relationship record is
saved before the destination is built, and every failure after that point is
discarded (the code computes the error and returns nil): with an unsupported
service type the destination build fails, yet the run returns success and a
relationship record with no destination data has already been persisted.
This contradicts both halves of the claim — the record is not saved after all
mutations are complete, and the failure does not propagate — while variant A
and the pv-backup flow, evaluated on failing inputs in the last two conjuncts,
return the error and persist nothing. -/
theorem runB_swallows_failure_and_persists_partial_record :
    (newMigrationRelationshipDestinationB flagsVariantB (sampleEnv (.error "not found"))).fst =
      .error "unsupported service type: ExternalName" ∧
    migrationCreateRunB flagsVariantB (sampleEnv (.error "not found")) =
      (.ok (), [ClusterOp.getPVC "ns1" "vol1"], [⟨1, none⟩]) ∧
    migrationCreateRunA flagsVariantB (sampleEnv (.error "not found")) =
      (.error "failed to fetch the copy method, err = flag accessed but not defined: copymethod",
       [], []) ∧
    pvBackupCreateRun pcSample ⟨.ok (), .ok, .ok, .error "timed out", .ok ()⟩ =
      (.error "failed to fetch rs status: timed out,",
       [ClusterOp.createSecret "ns1" "nightly", ClusterOp.createRS "ns1" "nightly-backup-source",
        ClusterOp.getRS "ns1" "nightly-backup-source"], []) :=
  ⟨rfl, rfl, rfl, rfl⟩

/-- C6: parseCLI pipes the cronspec flag value into parseCronSpec
unconditionally, and the five-field cron grammar rejects the empty expression,
so a create with the cronspec flag omitted (the flag is optional and defaults
to the empty string) fails to parse instead of meaning manual-trigger-only;
a non-empty valid schedule passes.  The claim describes the intended
behaviour — the commented-out required-flag marker shows the flag is meant to
be omissible — but the code lacks the non-empty guard. -/
theorem empty_cronspec_rejected :
    cronSpecValid "" = false ∧
    pvBackupParseCLI (backupFlagsCron "") resticFileSample =
      .error "failed to parse the cronspec, err = cron parse error on: " ∧
    pvBackupParseCLI (backupFlagsCron "0 2 * * *") resticFileSample =
      .ok ⟨"", "ns1", "vol1", "nightly", "nightly-backup-source",
           "s3:http://bucket/repo", "0 2 * * *"⟩ ∧
    cronSpecValid "@daily" = true :=
  ⟨rfl, rfl, rfl, rfl⟩

/-- The waiter loop times out after consuming all its fuel when every cycle
observes a fetched object that fails the predicate, having fetched once per
cycle. -/
theorem waitUntilGo_timeout {α : Type} (fetch : Nat → Except Err α) (pred : α → Bool)
    (fuel : Nat) :
    ∀ (start : Nat),
      (∀ j, j < fuel → ∃ o, fetch (start + j) = .ok o ∧ pred o = false) →
      waitUntilGo fetch pred start fuel = (.timeout, start + fuel) := by
  induction fuel with
  | zero =>
      intro start _
      simp [waitUntilGo]
  | succ fuel ih =>
      intro start h
      obtain ⟨o, ho, hp⟩ := h 0 (Nat.succ_pos fuel)
      rw [Nat.add_zero] at ho
      have ih2 := ih (start + 1) (fun j hj => by
        obtain ⟨o2, ho2, hp2⟩ := h (j + 1) (by omega)
        refine ⟨o2, ?_, hp2⟩
        have heq : start + (j + 1) = start + 1 + j := by omega
        rw [heq] at ho2
        exact ho2)
      have heq : start + (fuel + 1) = start + 1 + fuel := by omega
      rw [heq]
      simp [waitUntilGo, ho, hp]
      exact ih2

/-- The waiter aborts on the first fetch error, surfacing it without any
retry: the failing cycle is the last fetch performed. -/
theorem waitUntilGo_error {α : Type} (fetch : Nat → Except Err α) (pred : α → Bool)
    (fuel : Nat) :
    ∀ (start k : Nat) (e : Err), k < fuel →
      (∀ j, j < k → ∃ o, fetch (start + j) = .ok o ∧ pred o = false) →
      fetch (start + k) = .error e →
      waitUntilGo fetch pred start fuel = (.fetchError e, start + k + 1) := by
  induction fuel with
  | zero =>
      intro start k e hk _ _
      exact absurd hk (Nat.not_lt_zero k)
  | succ fuel ih =>
      intro start k e hk hnot herr
      cases k with
      | zero =>
          rw [Nat.add_zero] at herr
          simp [waitUntilGo, herr]
      | succ k2 =>
          obtain ⟨o, ho, hp⟩ := hnot 0 (Nat.succ_pos k2)
          rw [Nat.add_zero] at ho
          have ih2 := ih (start + 1) k2 e (by omega)
            (fun j hj => by
              obtain ⟨o2, ho2, hp2⟩ := hnot (j + 1) (by omega)
              refine ⟨o2, ?_, hp2⟩
              have heq : start + (j + 1) = start + 1 + j := by omega
              rw [heq] at ho2
              exact ho2)
            (by
              have heq : start + (k2 + 1) = start + 1 + k2 := by omega
              rw [heq] at herr
              exact herr)
          have heq : start + (k2 + 1) + 1 = start + 1 + k2 + 1 := by omega
          rw [heq]
          simp [waitUntilGo, ho, hp]
          exact ih2

/-- The waiter returns the object of the first cycle whose fetch succeeds and
satisfies the predicate, with no further fetch after it. -/
theorem waitUntilGo_ready {α : Type} (fetch : Nat → Except Err α) (pred : α → Bool)
    (fuel : Nat) :
    ∀ (start k : Nat) (o : α), k < fuel →
      (∀ j, j < k → ∃ o2, fetch (start + j) = .ok o2 ∧ pred o2 = false) →
      fetch (start + k) = .ok o → pred o = true →
      waitUntilGo fetch pred start fuel = (.ready o, start + k + 1) := by
  induction fuel with
  | zero =>
      intro start k o hk _ _ _
      exact absurd hk (Nat.not_lt_zero k)
  | succ fuel ih =>
      intro start k o hk hnot hok hp
      cases k with
      | zero =>
          rw [Nat.add_zero] at hok
          simp [waitUntilGo, hok, hp]
      | succ k2 =>
          obtain ⟨o2, ho2, hp2⟩ := hnot 0 (Nat.succ_pos k2)
          rw [Nat.add_zero] at ho2
          have ih2 := ih (start + 1) k2 o (by omega)
            (fun j hj => by
              obtain ⟨o3, ho3, hp3⟩ := hnot (j + 1) (by omega)
              refine ⟨o3, ?_, hp3⟩
              have heq : start + (j + 1) = start + 1 + j := by omega
              rw [heq] at ho3
              exact ho3)
            (by
              have heq : start + (k2 + 1) = start + 1 + k2 := by omega
              rw [heq] at hok
              exact hok)
            hp
          have heq : start + (k2 + 1) + 1 = start + 1 + k2 + 1 := by omega
          rw [heq]
          simp [waitUntilGo, ho2, hp2]
          exact ih2

/-- C8: the readiness-waiter contract of spec section 4.5, for every predicate.
The first fetch is cycle 0 and is attempted immediately; cycle k starts at
elapsed time k * interval and runs only while that has not passed the timeout
(k up to timeout / interval).  A fetch error on any cycle aborts the wait at
once with that error and no retry; the wait returns the object of the first
cycle whose fetched object satisfies the predicate, with no further fetch; if
every cycle within the bound fetches an unready object the wait fails with
timeout after exhausting exactly the cycles whose start time is within the
bound — their start times never exceed the timeout (never fails earlier), and
the failure itself happens only once the elapsed time has exceeded it. -/
theorem waiter_spec {α : Type} (fetch : Nat → Except Err α) (pred : α → Bool)
    (interval timeout : Nat) (hi : 0 < interval) :
    (∀ k e, k ≤ timeout / interval →
        (∀ j, j < k → ∃ o, fetch j = .ok o ∧ pred o = false) →
        fetch k = .error e →
        waitUntil fetch pred interval timeout = (.fetchError e, k + 1)) ∧
    (∀ k o, k ≤ timeout / interval →
        (∀ j, j < k → ∃ o2, fetch j = .ok o2 ∧ pred o2 = false) →
        fetch k = .ok o → pred o = true →
        waitUntil fetch pred interval timeout = (.ready o, k + 1)) ∧
    ((∀ j, j ≤ timeout / interval → ∃ o, fetch j = .ok o ∧ pred o = false) →
        waitUntil fetch pred interval timeout = (.timeout, timeout / interval + 1)) ∧
    (timeout / interval) * interval ≤ timeout ∧
    timeout < (timeout / interval + 1) * interval := by
  refine ⟨?_, ?_, ?_, Nat.div_mul_le_self timeout interval, ?_⟩
  · intro k e hk hnot herr
    have h := waitUntilGo_error fetch pred (timeout / interval + 1) 0 k e (by omega)
      (fun j hj => by simpa using hnot j hj) (by simpa using herr)
    simpa [waitUntil] using h
  · intro k o hk hnot hok hp
    have h := waitUntilGo_ready fetch pred (timeout / interval + 1) 0 k o (by omega)
      (fun j hj => by simpa using hnot j hj) (by simpa using hok) hp
    simpa [waitUntil] using h
  · intro hnot
    have h := waitUntilGo_timeout fetch pred (timeout / interval + 1) 0
      (fun j hj => by simpa using hnot j (by omega))
    simpa [waitUntil] using h
  · calc timeout = interval * (timeout / interval) + timeout % interval :=
          (Nat.div_add_mod timeout interval).symm
      _ < interval * (timeout / interval) + interval := by
          have := Nat.mod_lt timeout hi
          omega
      _ = (timeout / interval + 1) * interval := by ring

/-- C8 witness: with the fetch returning its cycle index and the predicate
true exactly at index 1, the wait over a 5 unit interval and a 60 unit bound
returns the object of cycle 1 after exactly two fetches. -/
theorem waiter_spec_witness :
    0 < 5 ∧ waitUntil (fun k => (Except.ok k : Except Err Nat))
      (fun n => decide (n = 1)) 5 60 = (.ready 1, 2) := by
  refine ⟨Nat.zero_lt_succ 4, ?_⟩
  refine (waiter_spec (fun k => (Except.ok k : Except Err Nat)) (fun n => decide (n = 1))
    5 60 (by decide)).2.1 1 1 (by decide) ?_ rfl (by decide)
  intro j hj
  exact ⟨j, rfl, by simp only [decide_eq_false_iff_not]; omega⟩

/-- When every successful destination build of variant A would have found an
existing PVC, a variant A run never attempts a PVC create. -/
theorem runA_no_createPVC (fl : MigrationFlags) (env : MigrationEnv)
    (hpvc : ∀ mrd tr, newMigrationRelationshipDestinationA fl env = (.ok mrd, tr) →
      mrd.pvc ≠ none) :
    ∀ ns n, ClusterOp.createPVC ns n ∉ (migrationCreateRunA fl env).2.1 := by
  intro ns n hmem
  unfold migrationCreateRunA at hmem
  rcases hrel : env.newRelationshipResult with e | u
  · rw [hrel] at hmem
    simp at hmem
  · rw [hrel] at hmem
    rcases hmrd : newMigrationRelationshipDestinationA fl env with ⟨res, tr⟩
    have htr := newMRD_A_trace fl env
    rw [hmrd] at htr
    dsimp at htr
    rcases res with e | mrd
    · rw [hmrd] at hmem
      dsimp at hmem
      rcases htr with h0 | ⟨ns2, n2, h1⟩
      · subst h0
        simp at hmem
      · subst h1
        simp at hmem
    · rw [hmrd] at hmem
      dsimp at hmem
      rcases hns : createNamespace env.createNSOutcome with e2 | u2
      · rw [hns] at hmem
        dsimp at hmem
        rcases htr with h0 | ⟨ns2, n2, h1⟩
        · subst h0
          simp at hmem
        · subst h1
          simp at hmem
      · rw [hns] at hmem
        dsimp at hmem
        rcases hp : mrd.pvc with _ | pvcval
        · exact (hpvc mrd tr hmrd) hp
        · rw [hp] at hmem
          dsimp at hmem
          have htr3 := createDestinationA_trace env.createRDOutcome env.waitResult mrd
          rcases hcd : createDestinationA env.createRDOutcome env.waitResult mrd with ⟨res3, tr3⟩
          rw [hcd] at hmem htr3
          dsimp at hmem htr3
          rcases res3 with e3 | mrd3
          · rcases htr with h0 | ⟨ns2, n2, h1⟩ <;> rcases htr3 with h3 | h3
            all_goals simp_all
          · rcases hsv : env.saveResult with e4 | u4 <;> rw [hsv] at hmem <;> dsimp at hmem
            all_goals rcases htr with h0 | ⟨ns2, n2, h1⟩ <;> rcases htr3 with h3 | h3
            all_goals simp_all

/-- When every successful destination build of variant B would have found an
existing PVC, a variant B run never attempts a PVC create. -/
theorem runB_no_createPVC (fl : MigrationFlags) (env : MigrationEnv)
    (hpvc : ∀ mrd tr, newMigrationRelationshipDestinationB fl env = (.ok mrd, tr) →
      mrd.pvc ≠ none) :
    ∀ ns n, ClusterOp.createPVC ns n ∉ (migrationCreateRunB fl env).2.1 := by
  intro ns n hmem
  unfold migrationCreateRunB at hmem
  rcases hrel : env.newRelationshipResult with e | u
  · rw [hrel] at hmem
    simp at hmem
  · rw [hrel] at hmem
    rcases hsv : env.saveResult with e4 | u4
    · rw [hsv] at hmem
      simp at hmem
    · rw [hsv] at hmem
      dsimp at hmem
      rcases hmrd : newMigrationRelationshipDestinationB fl env with ⟨res, tr⟩
      have htr := newMRD_B_trace fl env
      rw [hmrd] at htr
      dsimp at htr
      rcases res with e | mrd
      · rw [hmrd] at hmem
        dsimp at hmem
        rcases htr with h0 | ⟨ns2, n2, h1⟩
        · subst h0
          simp at hmem
        · subst h1
          simp at hmem
      · rw [hmrd] at hmem
        dsimp at hmem
        rcases hns : createNamespace env.createNSOutcome with e2 | u2
        · rw [hns] at hmem
          dsimp at hmem
          rcases htr with h0 | ⟨ns2, n2, h1⟩
          · subst h0
            simp at hmem
          · subst h1
            simp at hmem
        · rw [hns] at hmem
          dsimp at hmem
          rcases hp : mrd.pvc with _ | pvcval
          · exact (hpvc mrd tr hmrd) hp
          · rw [hp] at hmem
            dsimp at hmem
            rcases hcd : CreateDestinationB env.createRDOutcome mrd with ⟨res3, tr3⟩
            have htr3 : tr3 = [ClusterOp.createRD mrd.ns
                (mrd.ns ++ "-" ++ mrd.pvcName ++ "-replication-dest")] := by
              have : (CreateDestinationB env.createRDOutcome mrd).snd = tr3 := by rw [hcd]
              rw [← this]
              rfl
            rw [hcd] at hmem
            dsimp at hmem
            rcases htr with h0 | ⟨ns2, n2, h1⟩
            all_goals simp_all

/-- C2: in both migration-destination create variants the option checks run
inside the destination build, before any mutating cluster call.  A copy
method outside Direct, Clone, Snapshot and None fails the build immediately
with the unsupported-copymethod error before even the PVC read; a service
type outside ClusterIP, NodePort and LoadBalancer makes a successful build
impossible and its dedicated check rejects it with the unsupported-service-type
error; in each case the whole run makes no mutating cluster call. -/
theorem unsupportedOption_failsBeforeMutation
    (fl : MigrationFlags) (env : MigrationEnv) (cm st : String)
    (hcm : fl.copymethod = .ok cm) (hst : fl.servicetype = .ok st) :
    ((cm ≠ "Direct" ∧ cm ≠ "Clone" ∧ cm ≠ "Snapshot" ∧ cm ≠ "None") →
      newMigrationRelationshipDestinationA fl env =
        (.error ("unsupported copymethod: " ++ cm), []) ∧
      newMigrationRelationshipDestinationB fl env =
        (.error ("unsupported copymethod: " ++ cm), []) ∧
      (∀ op ∈ (migrationCreateRunA fl env).2.1, op.isMutating = false) ∧
      (∀ op ∈ (migrationCreateRunB fl env).2.1, op.isMutating = false)) ∧
    ((st ≠ "ClusterIP" ∧ st ≠ "NodePort" ∧ st ≠ "LoadBalancer") →
      (∀ mrd tr, newMigrationRelationshipDestinationA fl env ≠ (.ok mrd, tr)) ∧
      (∀ mrd tr, newMigrationRelationshipDestinationB fl env ≠ (.ok mrd, tr)) ∧
      (∀ trace mrd, (serviceTypeStepA (.ok st) trace mrd).fst =
        .error ("unsupported service type: " ++ st)) ∧
      (∀ trace mrd, (serviceTypeStepB (.ok st) trace mrd).fst =
        .error ("unsupported service type: " ++ st)) ∧
      (∀ op ∈ (migrationCreateRunA fl env).2.1, op.isMutating = false) ∧
      (∀ op ∈ (migrationCreateRunB fl env).2.1, op.isMutating = false)) := by
  constructor
  · intro hbad
    have hA : newMigrationRelationshipDestinationA fl env =
        (.error ("unsupported copymethod: " ++ cm), []) := by
      unfold newMigrationRelationshipDestinationA
      simp only [hcm]
      rw [if_pos ⟨hbad.1, hbad.2.1, hbad.2.2.1⟩]
    have hB : newMigrationRelationshipDestinationB fl env =
        (.error ("unsupported copymethod: " ++ cm), []) := by
      unfold newMigrationRelationshipDestinationB
      simp only [hcm, copyMethodOrDefaultB]
      rw [if_pos ⟨hbad.2.2.2, hbad.2.1, hbad.2.2.1⟩]
    refine ⟨hA, hB, ?_, ?_⟩
    · exact runA_fail_no_mutation fl env (fun mrd tr h => by rw [hA] at h; simp at h)
    · exact runB_fail_no_mutation fl env (fun mrd tr h => by rw [hB] at h; simp at h)
  · intro hbad
    have hA : ∀ mrd tr, newMigrationRelationshipDestinationA fl env ≠ (.ok mrd, tr) := by
      intro mrd tr h
      obtain ⟨st2, hst2, hval, _⟩ := (newMRD_A_ok_cases fl env mrd tr h).2.1
      rw [hst] at hst2
      obtain rfl : st = st2 := Except.ok.inj hst2
      rcases hval with h1 | h1
      · exact hbad.1 h1
      · exact hbad.2.2 h1
    have hB : ∀ mrd tr, newMigrationRelationshipDestinationB fl env ≠ (.ok mrd, tr) := by
      intro mrd tr h
      obtain ⟨st2, hst2, hval, _⟩ := (newMRD_B_ok_cases fl env mrd tr h).2.1
      rw [hst] at hst2
      obtain rfl : st = st2 := Except.ok.inj hst2
      rcases hval with h1 | h1 | h1
      · exact hbad.1 h1
      · exact hbad.2.1 h1
      · exact hbad.2.2 h1
    refine ⟨hA, hB, ?_, ?_, ?_, ?_⟩
    · intro trace mrd
      simp [serviceTypeStepA, hbad.1, hbad.2.2]
    · intro trace mrd
      simp [serviceTypeStepB, hbad.1, hbad.2.1, hbad.2.2]
    · exact runA_fail_no_mutation fl env hA
    · exact runB_fail_no_mutation fl env hB

/-- C2 witness: with copy method Rsync and service type ExternalName both
validations reject, at a concrete input. -/
theorem unsupportedOption_witness :
    newMigrationRelationshipDestinationA flagsBadOptions (sampleEnv (.ok pvcSample)) =
      (.error "unsupported copymethod: Rsync", []) ∧
    (serviceTypeStepA (.ok "ExternalName") [] MRD.zero).fst =
      .error "unsupported service type: ExternalName" := by
  have h := unsupportedOption_failsBeforeMutation flagsBadOptions (sampleEnv (.ok pvcSample))
    "Rsync" "ExternalName" rfl rfl
  exact ⟨(h.1 (by decide)).1, (h.2 (by decide)).2.2.1 [] MRD.zero⟩

/-- C4 counterexample: in variant B, when the destination PVC already exists
the build returns it and skips creation but copies none of its fields into the
record: with a PVC of capacity 5Gi, access mode ReadWriteMany and storage
class fast, the resulting record holds no capacity, no access modes and no
storage class, so the claim that access modes, capacity and storage class are
copied into the relationship record is false on this variant. -/
theorem pvcReuse_fieldsNotCopied_counterexample :
    ∃ mrd, (newMigrationRelationshipDestinationB (flagsWithCapacity "10Gi")
        (sampleEnv (.ok pvcSample))).fst = .ok mrd ∧
      mrd.pvc = some pvcSample ∧
      pvcSample.storageRequest = some "5Gi" ∧
      mrd.destination.capacity = none ∧
      mrd.destination.accessModes = [] ∧
      mrd.destination.storageClassName = none :=
  ⟨_, rfl, rfl, rfl, rfl, rfl, rfl⟩

/-- C4 (amended): when a PVC with the requested namespace and name already
exists, both variants return it unchanged in the record and neither run makes
any PVC create attempt (so a second invocation performs no second create);
variant A copies its access modes, capacity and storage class into the
relationship record, while variant B leaves those record fields unset. -/
theorem pvcReuse_idempotent (fl : MigrationFlags) (env : MigrationEnv) (pvc : PVCObj)
    (hget : env.getPVCResult = .ok pvc) :
    (∀ mrd tr, newMigrationRelationshipDestinationA fl env = (.ok mrd, tr) →
      mrd.pvc = some pvc ∧
      mrd.destination.capacity = some (pvc.storageRequest.getD "0") ∧
      mrd.destination.accessModes = pvc.accessModes ∧
      mrd.destination.storageClassName = pvc.storageClassName) ∧
    (∀ mrd tr, newMigrationRelationshipDestinationB fl env = (.ok mrd, tr) →
      mrd.pvc = some pvc ∧
      mrd.destination.capacity = none ∧
      mrd.destination.accessModes = [] ∧
      mrd.destination.storageClassName = none) ∧
    (∀ ns n, ClusterOp.createPVC ns n ∉ (migrationCreateRunA fl env).2.1) ∧
    (∀ ns n, ClusterOp.createPVC ns n ∉ (migrationCreateRunB fl env).2.1) := by
  have hgd : getDestinationPVC env.getPVCResult = some pvc := by
    rw [hget]
    rfl
  refine ⟨?_, ?_, ?_, ?_⟩
  · intro mrd tr h
    obtain ⟨h1, _, _, _, h5⟩ := newMRD_A_ok_cases fl env mrd tr h
    obtain ⟨hc, ha, hs, _⟩ := h5 pvc hgd
    exact ⟨h1.trans hgd, hc, ha, hs⟩
  · intro mrd tr h
    obtain ⟨h1, _, _, _, h5⟩ := newMRD_B_ok_cases fl env mrd tr h
    obtain ⟨hc, ha, hs, _⟩ := h5 pvc hgd
    exact ⟨h1.trans hgd, hc, ha, hs⟩
  · refine runA_no_createPVC fl env (fun mrd tr h => ?_)
    rw [(newMRD_A_ok_cases fl env mrd tr h).1, hgd]
    simp
  · refine runB_no_createPVC fl env (fun mrd tr h => ?_)
    rw [(newMRD_B_ok_cases fl env mrd tr h).1, hgd]
    simp

/-- C4 witness: with the sample PVC already present, a full variant A run
performs no PVC create. -/
theorem pvcReuse_idempotent_witness :
    (sampleEnv (.ok pvcSample)).getPVCResult = .ok pvcSample ∧
    ClusterOp.createPVC "ns1" "vol1" ∉
      (migrationCreateRunA (flagsWithCapacity "10Gi") (sampleEnv (.ok pvcSample))).2.1 :=
  ⟨rfl, (pvcReuse_idempotent (flagsWithCapacity "10Gi") (sampleEnv (.ok pvcSample))
    pvcSample rfl).2.2.1 "ns1" "vol1"⟩

/-- C5 counterexample: with no existing PVC (the lookup fails) and an empty
capacity flag the destination build does fail with the missing-capacity error,
but an API call — the read-only PVC lookup — has already been made, so the
claim that the failure happens before any API call is made is false. -/
theorem missingCapacity_apiCall_counterexample :
    newMigrationRelationshipDestinationA (flagsWithCapacity "") (sampleEnv (.error "boom")) =
      (.error "please provide the capacity or create a PVC by name: vol1",
       [ClusterOp.getPVC "ns1" "vol1"]) ∧
    ([ClusterOp.getPVC "ns1" "vol1"] : List ClusterOp) ≠ [] :=
  ⟨rfl, by decide⟩

/-- C5 (amended): when the PVC lookup finds nothing and no capacity value was
supplied, both variants fail the destination build (with the missing-capacity
message on the reachable path) and the whole run performs no mutating API
call; the only API call preceding the failure is the read-only PVC lookup. -/
theorem missingCapacity_failsBeforeMutation (fl : MigrationFlags) (env : MigrationEnv)
    (hget : getDestinationPVC env.getPVCResult = none)
    (hcap : fl.capacity = .ok "" ∨ ∃ e, fl.capacity = .error e) :
    (∀ mrd tr, newMigrationRelationshipDestinationA fl env ≠ (.ok mrd, tr)) ∧
    (∀ mrd tr, newMigrationRelationshipDestinationB fl env ≠ (.ok mrd, tr)) ∧
    (∀ op ∈ (migrationCreateRunA fl env).2.1, op.isMutating = false) ∧
    (∀ op ∈ (migrationCreateRunB fl env).2.1, op.isMutating = false) ∧
    (∀ e, newMigrationRelationshipDestinationA (flagsWithCapacity "") (sampleEnv (.error e)) =
      (.error "please provide the capacity or create a PVC by name: vol1",
       [ClusterOp.getPVC "ns1" "vol1"])) := by
  have hA : ∀ mrd tr, newMigrationRelationshipDestinationA fl env ≠ (.ok mrd, tr) := by
    intro mrd tr h
    obtain ⟨cap, hcapok, hne, _⟩ := (newMRD_A_ok_cases fl env mrd tr h).2.2.2.1 hget
    rcases hcap with h0 | ⟨e, h0⟩ <;> rw [h0] at hcapok
    · exact hne (Except.ok.inj hcapok).symm
    · exact Except.noConfusion hcapok
  have hB : ∀ mrd tr, newMigrationRelationshipDestinationB fl env ≠ (.ok mrd, tr) := by
    intro mrd tr h
    obtain ⟨cap, hcapok, hne, _⟩ := (newMRD_B_ok_cases fl env mrd tr h).2.2.2.1 hget
    rcases hcap with h0 | ⟨e, h0⟩ <;> rw [h0] at hcapok
    · exact hne (Except.ok.inj hcapok).symm
    · exact Except.noConfusion hcapok
  exact ⟨hA, hB, runA_fail_no_mutation fl env hA, runB_fail_no_mutation fl env hB,
    fun e => by rfl⟩

/-- C5 witness: a concrete run with a failed lookup and an empty capacity flag
cannot build a destination record. -/
theorem missingCapacity_witness :
    getDestinationPVC (sampleEnv (.error "boom")).getPVCResult = none ∧
    newMigrationRelationshipDestinationA (flagsWithCapacity "") (sampleEnv (.error "boom")) ≠
      (.ok MRD.zero, []) :=
  ⟨rfl, (missingCapacity_failsBeforeMutation (flagsWithCapacity "")
    (sampleEnv (.error "boom")) rfl (Or.inl rfl)).1 MRD.zero []⟩

/-- C7 counterexample: the CreateDestination of variant B submits the intent
object under the name ns1-vol1-replication-dest, not the claimed
ns1-vol1-migration-dest. -/
theorem replicationDest_name_counterexample :
    (CreateDestinationB .ok mrdNs1Vol1).snd =
      [ClusterOp.createRD "ns1" "ns1-vol1-replication-dest"] ∧
    ("ns1-vol1-replication-dest" : String) ≠ "ns1-vol1-migration-dest" :=
  ⟨rfl, by decide⟩

/-- C7 (amended): both variants derive the destination-object name
deterministically from the namespace and PVC name, so repeated invocations
target the same object; variant A names it namespace-pvcname-migration-dest
(MDName, used by its create), while variant B names it
namespace-pvcname-replication-dest. -/
theorem destinationObject_naming (fl : MigrationFlags) (env : MigrationEnv)
    (mrd : MRD) (tr : List ClusterOp)
    (h : newMigrationRelationshipDestinationA fl env = (.ok mrd, tr)) :
    mrd.mdName = mrd.ns ++ "-" ++ mrd.pvcName ++ "-migration-dest" ∧
    (∀ o w, (createDestinationA o w mrd).snd.head? =
      some (ClusterOp.createRD mrd.ns (mrd.ns ++ "-" ++ mrd.pvcName ++ "-migration-dest"))) ∧
    (∀ o m2, (CreateDestinationB o m2).snd =
      [ClusterOp.createRD m2.ns (m2.ns ++ "-" ++ m2.pvcName ++ "-replication-dest")]) := by
  have h1 := (newMRD_A_ok_cases fl env mrd tr h).2.2.1
  refine ⟨h1, ?_, fun o m2 => rfl⟩
  intro o w
  rcases createDestinationA_trace o w mrd with h3 | h3 <;> rw [h3] <;> rw [h1] <;> rfl

/-- C7 witness: the concrete destination record built by variant A carries the
derived migration-dest name. -/
theorem destinationObject_naming_witness :
    newMigrationRelationshipDestinationA (flagsWithCapacity "10Gi") (sampleEnv (.ok pvcSample)) =
      (.ok mrdSampleA, [ClusterOp.getPVC "ns1" "vol1"]) ∧
    mrdSampleA.mdName = mrdSampleA.ns ++ "-" ++ mrdSampleA.pvcName ++ "-migration-dest" :=
  ⟨rfl, (destinationObject_naming (flagsWithCapacity "10Gi") (sampleEnv (.ok pvcSample))
    mrdSampleA [ClusterOp.getPVC "ns1" "vol1"] rfl).1⟩

end VolSync
